import Mathlib

/-!
Shallow embedding of `src/airport.py` (airport ground-operations core).

Modelling conventions:
* Python exceptions become `Except AirportErr`; each constructor of
  `AirportErr` mirrors one Python exception class actually raised by the
  source (`ValueError` plus the `AirportError` subclasses), carrying the
  message string the source raises it with.
* Python in-place mutation becomes explicit state passing: every mutating
  method returns the updated entity / `Airport`.  `Airport.set_flight`
  writes an updated flight back into the flight list, modelling the fact
  that in Python the object found by `find_flight` is aliased by the list
  entry.
* Machine integers are `Nat`/`Int` (Python ints are unbounded, so no
  wrap-around is modelled).  Float-valued fields that no claimed operation
  ever reads (`max_wingspan_m`, weights, fuel, consumption,
  `cargo_loaded_kg`) are omitted from the state.
* Python `dict` (insertion ordered) becomes an insertion-ordered
  association list with unique keys.
-/

/-- The `FlightStatus` enum of the source. -/
inductive FlightStatus where
  | PLANNED
  | BOARDING
  | READY
  | TAXI
  | AIRBORNE
  | LANDED
  | CANCELLED
deriving DecidableEq, Repr

/-- the Python `status.name` used in the boarding error message. -/
def FlightStatus.name : FlightStatus → String
  | .PLANNED => "PLANNED"
  | .BOARDING => "BOARDING"
  | .READY => "READY"
  | .TAXI => "TAXI"
  | .AIRBORNE => "AIRBORNE"
  | .LANDED => "LANDED"
  | .CANCELLED => "CANCELLED"

/-- The `RunwayStatus` enum of the source. -/
inductive RunwayStatus where
  | FREE
  | IN_USE
  | MAINTENANCE
deriving DecidableEq, Repr

/-- The exception classes the source actually raises, with their message.
`valueError` is the Python builtin `ValueError`; the remaining constructors
are the `AirportError` subclasses defined in section 3 of the source. -/
inductive AirportErr where
  | valueError (msg : String)
  | capacityExceededError (msg : String)
  | gateNotAvailableError (msg : String)
  | runwayNotAvailableError (msg : String)
  | flightNotFoundError (msg : String)
  | schedulingError (msg : String)
deriving DecidableEq, Repr

/-- `isinstance(e, AirportError)`: whether an exception raised by the code
belongs to the typed `AirportError` hierarchy (a bare `ValueError` does not). -/
def AirportErr.isTypedAirportError : AirportErr → Bool
  | .valueError _ => false
  | _ => true

/-- The aircraft hierarchy: `PassengerAircraft` and `CargoAircraft`.
Only the fields read by the claimed operations are modelled
(`seat_rows`, `seats_per_row` for the passenger capacity;
`max_payload_kg` for the cargo capacity). -/
inductive Aircraft where
  | passengerAircraft (seat_rows : Nat) (seats_per_row : Nat)
  | cargoAircraft (max_payload_kg : Nat)
deriving DecidableEq, Repr

/-- The `capacity` property: rows × seats per row for passenger aircraft,
the payload for cargo aircraft. -/
def Aircraft.capacity : Aircraft → Int
  | .passengerAircraft r s => Int.ofNat (r * s)
  | .cargoAircraft p => Int.ofNat p

/-- The `Gate` dataclass: name, `occupied_by` (a flight id or `none`), id. -/
structure Gate where
  name : String
  occupied_by : Option Nat
  id : Nat
deriving DecidableEq, Repr

/-- `Gate.is_free`: true iff `occupied_by` is unset. -/
def Gate.is_free (g : Gate) : Bool :=
  g.occupied_by.isNone

/-- `Gate.assign`: raises `ValueError` if the gate is not free, otherwise
sets `occupied_by`. -/
def Gate.assign (g : Gate) (flight_id : Nat) : Except AirportErr Gate :=
  if !g.is_free then
    .error (.valueError ("Gate " ++ g.name ++ " ist belegt."))
  else
    .ok { g with occupied_by := some flight_id }

/-- `Gate.release`: unconditionally clears `occupied_by`. -/
def Gate.release (g : Gate) : Gate :=
  { g with occupied_by := none }

/-- The `Runway` dataclass: name, length, status, `current_flight`, id. -/
structure Runway where
  name : String
  length_m : Nat
  status : RunwayStatus
  current_flight : Option Nat
  id : Nat
deriving DecidableEq, Repr

/-- `Runway.is_available`: true iff status is FREE and no current flight. -/
def Runway.is_available (r : Runway) : Bool :=
  r.status == RunwayStatus.FREE && r.current_flight.isNone

/-- `Runway.occupy`: raises `ValueError` if not available, otherwise sets
`current_flight` and status IN_USE. -/
def Runway.occupy (r : Runway) (flight_id : Nat) : Except AirportErr Runway :=
  if !r.is_available then
    .error (.valueError ("Piste " ++ r.name ++ " nicht verfügbar."))
  else
    .ok { r with current_flight := some flight_id, status := RunwayStatus.IN_USE }

/-- `Runway.release`: unconditionally clears `current_flight` and sets
status FREE. -/
def Runway.release (r : Runway) : Runway :=
  { r with current_flight := none, status := RunwayStatus.FREE }

/-- The `Flight` dataclass.  The float field `cargo_loaded_kg` is never
read by any operation and is omitted. -/
structure Flight where
  flight_number : String
  origin : String
  destination : String
  aircraft : Aircraft
  planned_departure : String
  planned_arrival : String
  status : FlightStatus
  gate_id : Option Nat
  runway_id : Option Nat
  passengers_checked_in : Int
  id : Nat
deriving DecidableEq, Repr

/-- `Flight.set_status`: unconditional status overwrite. -/
def Flight.set_status (f : Flight) (new_status : FlightStatus) : Flight :=
  { f with status := new_status }

/-- `Flight.board_passengers`: `ValueError` on a non-passenger aircraft,
`ValueError` unless status is BOARDING or PLANNED, `CapacityExceededError`
when the new total would exceed capacity; otherwise adds `count` and, when
the new total equals capacity exactly, sets status READY. -/
def Flight.board_passengers (f : Flight) (count : Int) : Except AirportErr Flight :=
  match f.aircraft with
  | .cargoAircraft _ =>
      .error (.valueError ("Nur Passagiermaschinen können Passagiere boarden."))
  | .passengerAircraft _ _ =>
      if !(f.status == FlightStatus.BOARDING || f.status == FlightStatus.PLANNED) then
        .error (.valueError ("Boarding nicht möglich im Status " ++ f.status.name))
      else
        let new_total := f.passengers_checked_in + count
        if new_total > f.aircraft.capacity then
          .error (.capacityExceededError ("Kapazität überschritten."))
        else
          let f2 := { f with passengers_checked_in := new_total }
          if f2.passengers_checked_in == f2.aircraft.capacity then
            .ok (f2.set_status FlightStatus.READY)
          else
            .ok f2

/-- The `Schedule` dataclass: a `dict` from flight id to flight, modelled
as an insertion-ordered association list with unique keys. -/
structure Schedule where
  flights : List (Nat × Flight)
deriving DecidableEq, Repr

/-- `Schedule.add_flight`: raises `SchedulingError` when the id is already
present, otherwise inserts (a fresh dict key appends in insertion order). -/
def Schedule.add_flight (s : Schedule) (f : Flight) : Except AirportErr Schedule :=
  if s.flights.any (fun p => p.1 == f.id) then
    .error (.schedulingError ("Flug-ID bereits vorhanden."))
  else
    .ok { flights := s.flights ++ [(f.id, f)] }

/-- `Schedule.all`: the flight values in insertion order. -/
def Schedule.all (s : Schedule) : List Flight :=
  s.flights.map Prod.snd

/-- The per-flight body of `SimpleScheduler.auto_ready_if_boarded`: a flight
in status BOARDING whose checked-in count equals capacity is promoted to
READY (the source `hasattr(f.aircraft, "capacity")` guard is always true,
since every `Aircraft` implements `capacity`). -/
def auto_ready_step (f : Flight) : Flight :=
  if f.status == FlightStatus.BOARDING && f.passengers_checked_in == f.aircraft.capacity then
    f.set_status FlightStatus.READY
  else
    f

/-- `SimpleScheduler.auto_ready_if_boarded`: applies the promotion pass to
every flight of the schedule (each flight is updated independently). -/
def SimpleScheduler.auto_ready_if_boarded (s : Schedule) : Schedule :=
  { flights := s.flights.map (fun p => (p.1, auto_ready_step p.2)) }

/-- The `Airport` dataclass: gate, runway and flight pools in registration
order. -/
structure Airport where
  name : String
  gates : List Gate
  runways : List Runway
  flights : List Flight
deriving DecidableEq, Repr

/-- `Airport.add_gate`: appends (registration order). -/
def Airport.add_gate (a : Airport) (g : Gate) : Airport :=
  { a with gates := a.gates ++ [g] }

/-- `Airport.add_runway`: appends (registration order). -/
def Airport.add_runway (a : Airport) (r : Runway) : Airport :=
  { a with runways := a.runways ++ [r] }

/-- `Airport.add_flight`: appends. -/
def Airport.add_flight (a : Airport) (f : Flight) : Airport :=
  { a with flights := a.flights ++ [f] }

/-- `Airport.find_flight`: linear scan by id; `FlightNotFoundError` when
absent. -/
def Airport.find_flight (a : Airport) (flight_id : Nat) : Except AirportErr Flight :=
  match a.flights.find? (fun f => f.id == flight_id) with
  | some f => .ok f
  | none => .error (.flightNotFoundError ("Flug " ++ toString flight_id ++ " nicht gefunden."))

/-- Write-back of an updated flight: in the source, `find_flight` returns
the list entry itself, so mutating it mutates the entry; here every entry
with the mutated flight id (in Python necessarily the same object) is
replaced by the new value. -/
def Airport.set_flight (a : Airport) (f : Flight) : Airport :=
  { a with flights := a.flights.map (fun x => if x.id == f.id then f else x) }

/-- The gate loop of `Airport.assign_gate`: assign the first free gate
(`g.is_free()` then `g.assign(flight_id)`), leaving the rest unchanged;
`none` when no gate is free. -/
def assign_gate_scan (gates : List Gate) (flight_id : Nat) :
    Option (List Gate × Gate) :=
  match gates with
  | [] => none
  | g :: rest =>
    if g.is_free then
      let g2 := { g with occupied_by := some flight_id }
      some (g2 :: rest, g2)
    else
      match assign_gate_scan rest flight_id with
      | some (rest2, gg) => some (g :: rest2, gg)
      | none => none

/-- `Airport.assign_gate`: locate the flight, first-fit over the gates;
on success record the gate id on the flight and return the gate, otherwise
`GateNotAvailableError`. -/
def Airport.assign_gate (a : Airport) (flight_id : Nat) :
    Except AirportErr (Airport × Gate) :=
  match a.find_flight flight_id with
  | .error e => .error e
  | .ok flight =>
    match assign_gate_scan a.gates flight_id with
    | some (gates2, g) =>
        .ok (({ a with gates := gates2 }).set_flight { flight with gate_id := some g.id }, g)
    | none => .error (.gateNotAvailableError ("Kein Gate frei."))

/-- The gate loop of `Airport.release_gate`: release the first gate whose
id matches; `none` when no gate matches (then the source loop falls
through without mutating anything). -/
def release_gate_scan (gates : List Gate) (gid : Nat) : Option (List Gate) :=
  match gates with
  | [] => none
  | g :: rest =>
    if g.id == gid then
      some (g.release :: rest)
    else
      match release_gate_scan rest gid with
      | some rest2 => some (g :: rest2)
      | none => none

/-- `Airport.release_gate`: a no-op when the flight holds no gate;
otherwise releases the held gate (found by id) and clears the flight
gate reference; when no gate of that id exists the loop falls through and
nothing changes. -/
def Airport.release_gate (a : Airport) (flight_id : Nat) : Except AirportErr Airport :=
  match a.find_flight flight_id with
  | .error e => .error e
  | .ok flight =>
    match flight.gate_id with
    | none => .ok a
    | some gid =>
      match release_gate_scan a.gates gid with
      | some gates2 =>
          .ok (({ a with gates := gates2 }).set_flight { flight with gate_id := none })
      | none => .ok a

/-- The runway loop of `Airport.assign_runway_for_departure`: occupy the
first available runway (`r.is_available()` then `r.occupy(flight_id)`);
`none` when no runway is available. -/
def assign_runway_scan (runways : List Runway) (flight_id : Nat) :
    Option (List Runway × Runway) :=
  match runways with
  | [] => none
  | r :: rest =>
    if r.is_available then
      let r2 := { r with current_flight := some flight_id, status := RunwayStatus.IN_USE }
      some (r2 :: rest, r2)
    else
      match assign_runway_scan rest flight_id with
      | some (rest2, rr) => some (r :: rest2, rr)
      | none => none

/-- `Airport.assign_runway_for_departure`: first-fit over the runways; on
success record the runway on the flight and force status TAXI, otherwise
`RunwayNotAvailableError`. -/
def Airport.assign_runway_for_departure (a : Airport) (flight_id : Nat) :
    Except AirportErr (Airport × Runway) :=
  match a.find_flight flight_id with
  | .error e => .error e
  | .ok flight =>
    match assign_runway_scan a.runways flight_id with
    | some (runways2, r) =>
        .ok (({ a with runways := runways2 }).set_flight
               ({ flight with runway_id := some r.id }.set_status FlightStatus.TAXI), r)
    | none => .error (.runwayNotAvailableError ("Keine Piste frei."))

/-- The runway loop of `Airport.depart`: release the first runway whose id
matches; `none` when no runway matches (then the source loop falls
through and the flight keeps its dangling runway reference). -/
def release_runway_scan (runways : List Runway) (rid : Nat) : Option (List Runway) :=
  match runways with
  | [] => none
  | r :: rest =>
    if r.id == rid then
      some (r.release :: rest)
    else
      match release_runway_scan rest rid with
      | some rest2 => some (r :: rest2)
      | none => none

/-- `Airport.depart`: `ValueError` unless the status is READY or TAXI;
`ValueError` when no runway is held; otherwise set status AIRBORNE,
release the held runway (clearing the flight runway reference), then
release any held gate. -/
def Airport.depart (a : Airport) (flight_id : Nat) : Except AirportErr Airport :=
  match a.find_flight flight_id with
  | .error e => .error e
  | .ok flight =>
    if !(flight.status == FlightStatus.READY || flight.status == FlightStatus.TAXI) then
      .error (.valueError ("Flug nicht abflugbereit."))
    else
      match flight.runway_id with
      | none => .error (.valueError ("Keine Piste zugewiesen."))
      | some rid =>
        let flight2 := flight.set_status FlightStatus.AIRBORNE
        let st :=
          match release_runway_scan a.runways rid with
          | some runways2 =>
              ({ a with runways := runways2 }).set_flight { flight2 with runway_id := none }
          | none => a.set_flight flight2
        st.release_gate flight_id

/-- `Airport.arrive`: `ValueError` unless the status is AIRBORNE;
otherwise set status LANDED. -/
def Airport.arrive (a : Airport) (flight_id : Nat) : Except AirportErr Airport :=
  match a.find_flight flight_id with
  | .error e => .error e
  | .ok flight =>
    if !(flight.status == FlightStatus.AIRBORNE) then
      .error (.valueError ("Flug nicht in der Luft."))
    else
      .ok (a.set_flight (flight.set_status FlightStatus.LANDED))

/-- Classifier used to refute taxonomy claims: whether a boarding result
failed specifically with `CapacityExceededError`. -/
def isCapacityError : Except AirportErr Flight → Bool
  | .error (.capacityExceededError _) => true
  | _ => false

/-! Helper lemmas about the pool scans. -/

theorem find?_map_update {α : Type} (key : α → Nat) (l : List α) (n : Nat) (f f' : α)
    (h : l.find? (fun x => key x == n) = some f) (hid : key f' = key f) :
    (l.map (fun x => if key x == key f' then f' else x)).find? (fun x => key x == n)
      = some f' := by
  have hf : key f = n := by simpa using List.find?_some h
  revert h
  induction l with
  | nil => intro h; simp at h
  | cons x t ih =>
    intro h
    simp only [List.find?_cons] at h
    by_cases hx : key x = n
    · have hb : (key x == n) = true := by simpa using hx
      simp only [hb] at h
      injection h with h2
      subst h2
      have hcond : (key x == key f') = true := by
        simp [hid, hf, hx]
      rw [List.map_cons, if_pos hcond, List.find?_cons]
      have hb2 : (key f' == n) = true := by simp [hid, hf]
      simp only [hb2]
    · have hb : (key x == n) = false := by simpa using hx
      simp only [hb] at h
      have hcond : ¬((key x == key f') = true) := by
        rw [hid, hf]
        simpa using hx
      rw [List.map_cons, if_neg hcond, List.find?_cons]
      simp only [hb]
      exact ih h

theorem release_runway_scan_found (rws : List Runway) (rid : Nat) (r0 : Runway)
    (h : rws.find? (fun r => r.id == rid) = some r0) :
    ∃ rws2, release_runway_scan rws rid = some rws2
      ∧ rws2.find? (fun r => r.id == rid) = some r0.release := by
  revert h
  induction rws with
  | nil => intro h; simp at h
  | cons r t ih =>
    intro h
    simp only [List.find?_cons] at h
    by_cases hr : r.id = rid
    · have hb : (r.id == rid) = true := by simpa using hr
      simp only [hb] at h
      injection h with h2
      subst h2
      refine ⟨r.release :: t, ?_, ?_⟩
      · simp [release_runway_scan, hb]
      · have hb2 : ((Runway.release r).id == rid) = true := by
          simp [Runway.release, hr]
        simp [List.find?_cons, hb2]
    · have hb : (r.id == rid) = false := by simpa using hr
      simp only [hb] at h
      obtain ⟨t2, hscan, hfind⟩ := ih h
      refine ⟨r :: t2, ?_, ?_⟩
      · simp [release_runway_scan, hb, hscan]
      · simp [List.find?_cons, hb, hfind]

theorem release_gate_scan_found (gs : List Gate) (gid : Nat) (g0 : Gate)
    (h : gs.find? (fun g => g.id == gid) = some g0) :
    ∃ gs2, release_gate_scan gs gid = some gs2
      ∧ gs2.find? (fun g => g.id == gid) = some g0.release := by
  revert h
  induction gs with
  | nil => intro h; simp at h
  | cons g t ih =>
    intro h
    simp only [List.find?_cons] at h
    by_cases hg : g.id = gid
    · have hb : (g.id == gid) = true := by simpa using hg
      simp only [hb] at h
      injection h with h2
      subst h2
      refine ⟨g.release :: t, ?_, ?_⟩
      · simp [release_gate_scan, hb]
      · have hb2 : ((Gate.release g).id == gid) = true := by
          simp [Gate.release, hg]
        simp [List.find?_cons, hb2]
    · have hb : (g.id == gid) = false := by simpa using hg
      simp only [hb] at h
      obtain ⟨t2, hscan, hfind⟩ := ih h
      refine ⟨g :: t2, ?_, ?_⟩
      · simp [release_gate_scan, hb, hscan]
      · simp [List.find?_cons, hb, hfind]

theorem release_gate_scan_preserve (gs : List Gate) (gs2 : List Gate) (gid n : Nat)
    (h : release_gate_scan gs gid = some gs2) (hn : ¬ n = gid) :
    gs2.find? (fun g => g.id == n) = gs.find? (fun g => g.id == n) := by
  induction gs generalizing gs2 with
  | nil => simp [release_gate_scan] at h
  | cons g t ih =>
    by_cases hg : g.id = gid
    · have hb : (g.id == gid) = true := by simpa using hg
      simp only [release_gate_scan, hb, if_true] at h
      injection h with h2
      subst h2
      have hgn : (g.id == n) = false := by
        simp [hg]
        intro hc
        exact hn hc.symm
      have hgn2 : ((Gate.release g).id == n) = false := by
        simpa [Gate.release] using hgn
      simp [List.find?_cons, hgn, hgn2]
    · have hb : (g.id == gid) = false := by simpa using hg
      simp only [release_gate_scan, hb, Bool.false_eq_true, if_false] at h
      cases hs : release_gate_scan t gid with
      | none => rw [hs] at h; simp at h
      | some t2 =>
        rw [hs] at h
        simp only [Option.some.injEq] at h
        subst h
        simp only [List.find?_cons]
        cases hgn : (g.id == n) with
        | true => rfl
        | false => exact ih t2 hs

theorem assign_gate_scan_none (gs : List Gate) (fid : Nat)
    (h : gs.find? (fun g => g.is_free) = none) :
    assign_gate_scan gs fid = none := by
  induction gs with
  | nil => simp [assign_gate_scan]
  | cons g t ih =>
    simp only [List.find?_cons] at h
    cases hgf : g.is_free with
    | true => rw [hgf] at h; simp at h
    | false =>
      rw [hgf] at h
      simp only [assign_gate_scan, hgf, Bool.false_eq_true, if_false]
      rw [ih h]

theorem assign_gate_scan_found (gs : List Gate) (fid : Nat) (g : Gate)
    (h : gs.find? (fun x => x.is_free) = some g) :
    ∃ gs2, assign_gate_scan gs fid = some (gs2, { g with occupied_by := some fid })
      ∧ (gs2.find? (fun x => x.id == g.id)).isSome = true := by
  revert h
  induction gs with
  | nil => intro h; simp at h
  | cons x t ih =>
    intro h
    simp only [List.find?_cons] at h
    cases hx : x.is_free with
    | true =>
      rw [hx] at h
      simp only [Option.some.injEq] at h
      subst h
      refine ⟨{ x with occupied_by := some fid } :: t, ?_, ?_⟩
      · simp [assign_gate_scan, hx]
      · simp [List.find?_cons]
    | false =>
      rw [hx] at h
      obtain ⟨t2, hscan, hfind⟩ := ih h
      refine ⟨x :: t2, ?_, ?_⟩
      · simp [assign_gate_scan, hx, hscan]
      · simp only [List.find?_cons]
        cases hxn : (x.id == g.id) with
        | true => simp
        | false => simpa using hfind

theorem assign_gate_scan_preserve (gs : List Gate) (gs2 : List Gate) (g2 : Gate)
    (fid n : Nat)
    (h : assign_gate_scan gs fid = some (gs2, g2)) (hn : ¬ n = g2.id) :
    gs2.find? (fun x => x.id == n) = gs.find? (fun x => x.id == n) := by
  induction gs generalizing gs2 with
  | nil => simp [assign_gate_scan] at h
  | cons x t ih =>
    cases hx : x.is_free with
    | true =>
      simp only [assign_gate_scan, hx, if_true] at h
      simp only [Option.some.injEq, Prod.mk.injEq] at h
      obtain ⟨h1, h2⟩ := h
      subst h1
      subst h2
      have hxn : (x.id == n) = false := by
        simp
        intro hc
        exact hn (by simp [hc])
      have hxn2 : (({ x with occupied_by := some fid } : Gate).id == n) = false := hxn
      simp [List.find?_cons, hxn, hxn2]
    | false =>
      simp only [assign_gate_scan, hx, Bool.false_eq_true, if_false] at h
      cases hs : assign_gate_scan t fid with
      | none => rw [hs] at h; simp at h
      | some p =>
        rw [hs] at h
        simp only [Option.some.injEq] at h
        obtain ⟨p1, p2⟩ := p
        simp only [Prod.mk.injEq] at h
        obtain ⟨h1, h2⟩ := h
        subst h1
        subst h2
        simp only [List.find?_cons]
        cases hxn : (x.id == n) with
        | true => rfl
        | false => exact ih p1 hs

theorem assign_runway_scan_selected (rws : List Runway) (fid : Nat)
    (rws2 : List Runway) (rsel : Runway)
    (h : assign_runway_scan rws fid = some (rws2, rsel)) :
    ∃ r0, r0 ∈ rws ∧ r0.is_available = true
      ∧ rsel = { r0 with current_flight := some fid, status := RunwayStatus.IN_USE } := by
  induction rws generalizing rws2 with
  | nil => simp [assign_runway_scan] at h
  | cons r t ih =>
    cases hr : r.is_available with
    | true =>
      simp only [assign_runway_scan, hr, if_true] at h
      simp only [Option.some.injEq, Prod.mk.injEq] at h
      exact ⟨r, List.mem_cons_self r t, hr, h.2.symm⟩
    | false =>
      simp only [assign_runway_scan, hr, Bool.false_eq_true, if_false] at h
      cases hs : assign_runway_scan t fid with
      | none => rw [hs] at h; simp at h
      | some p =>
        rw [hs] at h
        obtain ⟨p1, p2⟩ := p
        simp only [Option.some.injEq, Prod.mk.injEq] at h
        obtain ⟨h1, h2⟩ := h
        subst h1
        subst h2
        obtain ⟨r0, hmem, havail, heq⟩ := ih p1 hs
        exact ⟨r0, List.mem_cons_of_mem r hmem, havail, heq⟩

/-! Concrete states used by witnesses and counterexamples. -/

/-- The demo passenger aircraft: 30 rows × 6 seats (capacity 180). -/
def demoPassengerAircraft : Aircraft := Aircraft.passengerAircraft 30 6

/-- The demo flight AB123 once boarding has been opened. -/
def demoBoardingFlight : Flight :=
  { flight_number := "AB123", origin := "DEMO", destination := "LHR",
    aircraft := demoPassengerAircraft,
    planned_departure := "2025-09-08 09:00", planned_arrival := "2025-09-08 10:15",
    status := FlightStatus.BOARDING, gate_id := none, runway_id := none,
    passengers_checked_in := 0, id := 1 }

/-- A schedule that already contains flight id 1. -/
def demoSchedule : Schedule := { flights := [(1, demoBoardingFlight)] }

/-- Gate A1, free. -/
def cFreeGateA1 : Gate := { name := "A1", occupied_by := none, id := 1 }

/-- Gate A2, free. -/
def cFreeGateA2 : Gate := { name := "A2", occupied_by := none, id := 2 }

/-- Gate A1, occupied by flight 1. -/
def cOccupiedGate : Gate := { name := "A1", occupied_by := some 1, id := 1 }

/-- A runway under maintenance. -/
def cMaintRunway : Runway :=
  { name := "09L/27R", length_m := 3800, status := RunwayStatus.MAINTENANCE,
    current_flight := none, id := 1 }

/-- A free runway. -/
def cFreeRunway : Runway :=
  { name := "09R/27L", length_m := 3650, status := RunwayStatus.FREE,
    current_flight := none, id := 2 }

/-- A runway held by flight 1. -/
def cRunwayInUse : Runway :=
  { name := "09L/27R", length_m := 3800, status := RunwayStatus.IN_USE,
    current_flight := some 1, id := 1 }

/-- A cargo flight (id 2) in status PLANNED. -/
def cCargoFlight : Flight :=
  { flight_number := "CG900", origin := "DEMO", destination := "JFK",
    aircraft := Aircraft.cargoAircraft 130000,
    planned_departure := "2025-09-08 11:00", planned_arrival := "2025-09-08 17:30",
    status := FlightStatus.PLANNED, gate_id := none, runway_id := none,
    passengers_checked_in := 0, id := 2 }

/-- A READY flight (id 3) that holds no runway. -/
def cReadyNoRunwayFlight : Flight :=
  { flight_number := "AB124", origin := "DEMO", destination := "CDG",
    aircraft := demoPassengerAircraft,
    planned_departure := "2025-09-08 12:00", planned_arrival := "2025-09-08 13:15",
    status := FlightStatus.READY, gate_id := none, runway_id := none,
    passengers_checked_in := 180, id := 3 }

/-- A PLANNED passenger flight (id 1) holding nothing. -/
def cPlannedFlight : Flight :=
  { flight_number := "AB123", origin := "DEMO", destination := "LHR",
    aircraft := demoPassengerAircraft,
    planned_departure := "2025-09-08 09:00", planned_arrival := "2025-09-08 10:15",
    status := FlightStatus.PLANNED, gate_id := none, runway_id := none,
    passengers_checked_in := 0, id := 1 }

/-- A READY flight (id 1) holding gate 1 and runway 1. -/
def cReadyFlight : Flight :=
  { flight_number := "AB123", origin := "DEMO", destination := "LHR",
    aircraft := demoPassengerAircraft,
    planned_departure := "2025-09-08 09:00", planned_arrival := "2025-09-08 10:15",
    status := FlightStatus.READY, gate_id := some 1, runway_id := some 1,
    passengers_checked_in := 180, id := 1 }

/-- Airport used for the error-taxonomy scenarios: one occupied gate, one
maintenance runway, a PLANNED cargo flight (id 2) and a READY flight with
no runway (id 3). -/
def cAirportErrors : Airport :=
  { name := "Demo International", gates := [cOccupiedGate],
    runways := [cMaintRunway], flights := [cCargoFlight, cReadyNoRunwayFlight] }

/-- Airport with two free gates A1, A2 registered in that order and a
PLANNED flight with id 1. -/
def cAirportTwoFreeGates : Airport :=
  { name := "Demo International", gates := [cFreeGateA1, cFreeGateA2],
    runways := [], flights := [cPlannedFlight] }

/-- Airport whose only gate is occupied, with a PLANNED flight id 1. -/
def cAirportNoFreeGate : Airport :=
  { name := "Demo International", gates := [cOccupiedGate],
    runways := [], flights := [cPlannedFlight] }

/-- Airport with a READY flight (id 1) holding gate 1 and runway 1. -/
def cAirportReadyToDepart : Airport :=
  { name := "Demo International", gates := [cOccupiedGate],
    runways := [cRunwayInUse], flights := [cReadyFlight] }

/-- Airport with a PLANNED flight only (for the arrive claims). -/
def cAirportPlannedOnly : Airport :=
  { name := "Demo International", gates := [], runways := [],
    flights := [cPlannedFlight] }

/-- A PLANNED flight (id 1) that already holds gate 1. -/
def cFlightHoldingGate1 : Flight :=
  { flight_number := "AB123", origin := "DEMO", destination := "LHR",
    aircraft := demoPassengerAircraft,
    planned_departure := "2025-09-08 09:00", planned_arrival := "2025-09-08 10:15",
    status := FlightStatus.PLANNED, gate_id := some 1, runway_id := none,
    passengers_checked_in := 0, id := 1 }

/-- Airport where flight 1 holds the occupied gate 1 while gate 2 is
free. -/
def cAirportSecondAssign : Airport :=
  { name := "Demo International", gates := [cOccupiedGate, cFreeGateA2],
    runways := [], flights := [cFlightHoldingGate1] }

/-- The runway invariant of the spec:
`status == IN_USE ⇔ currentFlight != None`. -/
def runwayInv (r : Runway) : Prop :=
  r.status = RunwayStatus.IN_USE ↔ r.current_flight ≠ none

/-- Convenience: `find_flight` succeeds on the first list entry matching
the id. -/
theorem find_flight_ok (a : Airport) (fid : Nat) (flight : Flight)
    (h : a.flights.find? (fun f => f.id == fid) = some flight) :
    a.find_flight fid = .ok flight := by
  unfold Airport.find_flight
  rw [h]

/-- The promotion pass is idempotent on a single flight. -/
theorem auto_ready_step_idem (f : Flight) :
    auto_ready_step (auto_ready_step f) = auto_ready_step f := by
  cases hc : (f.status == FlightStatus.BOARDING
      && f.passengers_checked_in == f.aircraft.capacity) with
  | true =>
    have h1 : auto_ready_step f = f.set_status FlightStatus.READY := by
      unfold auto_ready_step
      rw [if_pos hc]
    rw [h1]
    simp [auto_ready_step, Flight.set_status]
  | false =>
    have h1 : auto_ready_step f = f := by
      unfold auto_ready_step
      rw [hc]
      simp
    rw [h1]
    exact h1

/-! Claim theorems. -/

/-- Claim C6: for every runway, in any status including MAINTENANCE,
`release()` unconditionally clears `current_flight` and forces status FREE. -/
theorem c6_release_forces_free (r : Runway) :
    (r.release).status = RunwayStatus.FREE ∧ (r.release).current_flight = none :=
  ⟨rfl, rfl⟩

/-- Claim C9: `auto_ready_if_boarded` is idempotent — running the pass
twice on any schedule yields exactly the same schedule (hence the same
flight statuses) as running it once. -/
theorem c9_auto_ready_idempotent (s : Schedule) :
    SimpleScheduler.auto_ready_if_boarded (SimpleScheduler.auto_ready_if_boarded s)
      = SimpleScheduler.auto_ready_if_boarded s := by
  unfold SimpleScheduler.auto_ready_if_boarded
  simp only [List.map_map]
  have hfun : ((fun p : Nat × Flight => (p.1, auto_ready_step p.2))
        ∘ (fun p : Nat × Flight => (p.1, auto_ready_step p.2)))
      = fun p : Nat × Flight => (p.1, auto_ready_step p.2) := by
    funext p
    simp [Function.comp, auto_ready_step_idem]
  rw [hfun]

/-- Claim C8: adding a flight whose id is already a key of the schedule
fails with the dedicated typed duplicate-id error (class `SchedulingError`
in the source) and produces no new schedule, so the original entry for
that id is untouched. -/
theorem c8_add_flight_duplicate (s : Schedule) (f : Flight)
    (h : s.flights.any (fun p => p.1 == f.id) = true) :
    s.add_flight f = .error (.schedulingError ("Flug-ID bereits vorhanden."))
      ∧ (AirportErr.schedulingError ("Flug-ID bereits vorhanden.")).isTypedAirportError
          = true := by
  constructor
  · unfold Schedule.add_flight
    rw [if_pos h]
  · rfl

/-- Witness for C8: the demo schedule already holds flight id 1, so adding
the same flight again fails with `SchedulingError`. -/
theorem c8_add_flight_duplicate_witness :
    demoSchedule.add_flight demoBoardingFlight
        = .error (.schedulingError ("Flug-ID bereits vorhanden."))
      ∧ (AirportErr.schedulingError ("Flug-ID bereits vorhanden.")).isTypedAirportError
          = true :=
  c8_add_flight_duplicate demoSchedule demoBoardingFlight rfl

/-- Claim C7: `arrive` on a flight whose status is not AIRBORNE fails
(raising the source `ValueError "Flug nicht in der Luft."`) and produces
no new state, so the status is unchanged; on an AIRBORNE flight it sets
status LANDED. -/
theorem c7_arrive (a : Airport) (fid : Nat) (flight : Flight)
    (h1 : a.flights.find? (fun f => f.id == fid) = some flight) :
    (flight.status ≠ FlightStatus.AIRBORNE →
       a.arrive fid = .error (.valueError ("Flug nicht in der Luft.")))
    ∧ (flight.status = FlightStatus.AIRBORNE →
       ∃ a', a.arrive fid = .ok a'
         ∧ a'.flights.find? (fun f => f.id == fid)
             = some (flight.set_status FlightStatus.LANDED)) := by
  have hff := find_flight_ok a fid flight h1
  constructor
  · intro hs
    have hb : (flight.status == FlightStatus.AIRBORNE) = false := by simpa using hs
    simp only [Airport.arrive, hff, hb, Bool.not_false, if_true]
  · intro hs
    have hb : (flight.status == FlightStatus.AIRBORNE) = true := by simpa using hs
    simp only [Airport.arrive, hff, hb, Bool.not_true, Bool.false_eq_true, if_false]
    refine ⟨_, rfl, ?_⟩
    exact find?_map_update Flight.id a.flights fid flight
      (flight.set_status FlightStatus.LANDED) h1 rfl

/-- Witness for C7: arriving the PLANNED flight 1 fails with the
invalid-state error. -/
theorem c7_arrive_witness :
    cAirportPlannedOnly.arrive 1 = .error (.valueError ("Flug nicht in der Luft.")) :=
  (c7_arrive cAirportPlannedOnly 1 cPlannedFlight rfl).1 (by decide)

/-- Claim C2 (amended): for a passenger-aircraft flight in status PLANNED
or BOARDING, boarding fails with `CapacityExceededError` exactly when the
new total would exceed capacity (no state is produced, so `checkedIn` and
the status are unchanged); otherwise it adds `count` to `checkedIn` and
sets status READY exactly when the new total equals capacity.  In the
concrete 180-capacity scenario, boarding 100 then 80 yields
`checkedIn = 180` and READY, and a further boarding of 1 fails with the
invalid-status `ValueError` (the flight is no longer in a boardable
status), not with `CapacityExceededError`. -/
theorem c2_board_passengers (f : Flight) (count : Int) (rows seats : Nat)
    (hair : f.aircraft = Aircraft.passengerAircraft rows seats)
    (hst : f.status = FlightStatus.PLANNED ∨ f.status = FlightStatus.BOARDING) :
    (f.passengers_checked_in + count > f.aircraft.capacity →
       f.board_passengers count
         = .error (.capacityExceededError ("Kapazität überschritten.")))
    ∧ (f.passengers_checked_in + count ≤ f.aircraft.capacity →
       ∃ f', f.board_passengers count = .ok f'
         ∧ f'.passengers_checked_in = f.passengers_checked_in + count
         ∧ (f'.status = FlightStatus.READY
              ↔ f.passengers_checked_in + count = f.aircraft.capacity)
         ∧ (f.passengers_checked_in + count ≠ f.aircraft.capacity →
              f'.status = f.status))
    ∧ (∃ f1 f2, demoBoardingFlight.board_passengers 100 = .ok f1
         ∧ f1.board_passengers 80 = .ok f2
         ∧ f2.passengers_checked_in = 180
         ∧ f2.status = FlightStatus.READY
         ∧ f2.board_passengers 1
             = .error (.valueError ("Boarding nicht möglich im Status READY"))) := by
  obtain ⟨fn, og, dn, ac, pd, pa, st, gi, ri, pc, fid⟩ := f
  simp only at hair hst
  subst hair
  refine ⟨?_, ?_, ?_⟩
  · intro hgt
    simp only at hgt
    rcases hst with h|h <;> subst h <;>
      simp [Flight.board_passengers, hgt]
  · intro hle
    simp only at hle
    have hng : ¬(pc + count > Aircraft.capacity (Aircraft.passengerAircraft rows seats)) :=
      not_lt.mpr hle
    by_cases heq : pc + count = Aircraft.capacity (Aircraft.passengerAircraft rows seats)
    · rcases hst with h|h <;> subst h <;>
        exact ⟨{ flight_number := fn, origin := og, destination := dn,
                 aircraft := Aircraft.passengerAircraft rows seats, planned_departure := pd,
                 planned_arrival := pa, status := FlightStatus.READY, gate_id := gi,
                 runway_id := ri, passengers_checked_in := pc + count, id := fid },
          by simp [Flight.board_passengers, hng, heq, Flight.set_status],
          rfl,
          ⟨fun _ => heq, fun _ => rfl⟩,
          fun hne => absurd heq hne⟩
    · rcases hst with h|h
      · subst h
        exact ⟨{ flight_number := fn, origin := og, destination := dn,
                 aircraft := Aircraft.passengerAircraft rows seats, planned_departure := pd,
                 planned_arrival := pa, status := FlightStatus.PLANNED, gate_id := gi,
                 runway_id := ri, passengers_checked_in := pc + count, id := fid },
          by simp [Flight.board_passengers, hng, heq],
          rfl,
          ⟨fun hr => FlightStatus.noConfusion hr, fun hc => absurd hc heq⟩,
          fun _ => rfl⟩
      · subst h
        exact ⟨{ flight_number := fn, origin := og, destination := dn,
                 aircraft := Aircraft.passengerAircraft rows seats, planned_departure := pd,
                 planned_arrival := pa, status := FlightStatus.BOARDING, gate_id := gi,
                 runway_id := ri, passengers_checked_in := pc + count, id := fid },
          by simp [Flight.board_passengers, hng, heq],
          rfl,
          ⟨fun hr => FlightStatus.noConfusion hr, fun hc => absurd hc heq⟩,
          fun _ => rfl⟩
  · exact ⟨_, _, rfl, rfl, rfl, rfl, rfl⟩

/-- Counterexample for C2 as originally stated: after boarding 100 then 80
passengers (reaching capacity, status READY), boarding 1 more does NOT
fail with `CapacityExceededError` — the status check fires first and the
failure is the generic invalid-status `ValueError`. -/
theorem c2_board_passengers_counterexample :
    ((demoBoardingFlight.board_passengers 100).bind
        (fun f1 => f1.board_passengers 80)).bind (fun f2 => f2.board_passengers 1)
      = .error (.valueError ("Boarding nicht möglich im Status READY"))
    ∧ isCapacityError
        (((demoBoardingFlight.board_passengers 100).bind
            (fun f1 => f1.board_passengers 80)).bind (fun f2 => f2.board_passengers 1))
        = false :=
  ⟨rfl, rfl⟩

/-- Witness for C2: boarding 200 passengers onto the empty 180-capacity
demo flight fails with `CapacityExceededError`. -/
theorem c2_board_passengers_witness :
    demoBoardingFlight.board_passengers 200
      = .error (.capacityExceededError ("Kapazität überschritten.")) :=
  (c2_board_passengers demoBoardingFlight 200 30 6 rfl (Or.inr rfl)).1 (by decide)

/-- Claim C3 (amended): every failure of a core operation is surfaced
synchronously as an exception, but the five failure modes the claim lists
(occupied-gate assign, unavailable-runway occupy, boarding a non-passenger
aircraft, an operation from an illegal status, departure without a held
runway) all raise the Python generic `ValueError` — distinguishable only by
message, not by type — rather than dedicated typed errors of the §7
taxonomy.  Only capacity, gate-pool, runway-pool, flight-lookup and
duplicate-id failures carry typed `AirportError` subclasses. -/
theorem c3_error_taxonomy :
    (∀ (g : Gate) (fid : Nat), g.is_free = false →
       g.assign fid = .error (.valueError ("Gate " ++ g.name ++ " ist belegt.")))
    ∧ (∀ (r : Runway) (fid : Nat), r.is_available = false →
       r.occupy fid = .error (.valueError ("Piste " ++ r.name ++ " nicht verfügbar.")))
    ∧ (∀ (f : Flight) (count : Int) (p : Nat), f.aircraft = Aircraft.cargoAircraft p →
       f.board_passengers count
         = .error (.valueError ("Nur Passagiermaschinen können Passagiere boarden.")))
    ∧ (∀ (a : Airport) (fid : Nat) (flight : Flight),
       a.flights.find? (fun x => x.id == fid) = some flight →
       flight.status ≠ FlightStatus.AIRBORNE →
       a.arrive fid = .error (.valueError ("Flug nicht in der Luft.")))
    ∧ (∀ (a : Airport) (fid : Nat) (flight : Flight),
       a.flights.find? (fun x => x.id == fid) = some flight →
       (flight.status = FlightStatus.READY ∨ flight.status = FlightStatus.TAXI) →
       flight.runway_id = none →
       a.depart fid = .error (.valueError ("Keine Piste zugewiesen.")))
    ∧ (∀ msg, (AirportErr.valueError msg).isTypedAirportError = false) := by
  refine ⟨?_, ?_, ?_, ?_, ?_, ?_⟩
  · intro g fid hfree
    unfold Gate.assign
    rw [hfree]
    rfl
  · intro r fid havail
    unfold Runway.occupy
    rw [havail]
    rfl
  · intro f count p hair
    unfold Flight.board_passengers
    rw [hair]
  · intro a fid flight h1 hs
    have hff := find_flight_ok a fid flight h1
    have hb : (flight.status == FlightStatus.AIRBORNE) = false := by simpa using hs
    simp only [Airport.arrive, hff, hb, Bool.not_false, if_true]
  · intro a fid flight h1 hst hrid
    have hff := find_flight_ok a fid flight h1
    have hb : (flight.status == FlightStatus.READY
        || flight.status == FlightStatus.TAXI) = true := by
      rcases hst with h|h <;> simp [h]
    simp only [Airport.depart, hff, hb, Bool.not_true, Bool.false_eq_true, if_false, hrid]
  · intro msg
    rfl

/-- Counterexample for C3 as originally stated: each of the five listed
failures surfaces as the untyped builtin `ValueError` (not a member of the
typed `AirportError` taxonomy), so the occupied-gate failure and the
missing-runway failure, for instance, are not distinguishable by type. -/
theorem c3_error_taxonomy_counterexample :
    cOccupiedGate.assign 2 = .error (.valueError ("Gate A1 ist belegt."))
    ∧ (AirportErr.valueError ("Gate A1 ist belegt.")).isTypedAirportError = false
    ∧ cMaintRunway.occupy 2
        = .error (.valueError ("Piste 09L/27R nicht verfügbar."))
    ∧ (AirportErr.valueError ("Piste 09L/27R nicht verfügbar.")).isTypedAirportError
        = false
    ∧ cCargoFlight.board_passengers 1
        = .error (.valueError ("Nur Passagiermaschinen können Passagiere boarden."))
    ∧ cAirportErrors.arrive 2 = .error (.valueError ("Flug nicht in der Luft."))
    ∧ cAirportErrors.depart 3 = .error (.valueError ("Keine Piste zugewiesen."))
    ∧ (AirportErr.valueError ("Keine Piste zugewiesen.")).isTypedAirportError = false :=
  ⟨rfl, rfl, rfl, rfl, rfl, rfl, rfl, rfl⟩

/-- Witness for C3 (amended): the five universal conjuncts instantiated at
concrete states. -/
theorem c3_error_taxonomy_witness :
    cOccupiedGate.assign 2
        = .error (.valueError ("Gate " ++ cOccupiedGate.name ++ " ist belegt."))
    ∧ cMaintRunway.occupy 2
        = .error (.valueError ("Piste " ++ cMaintRunway.name ++ " nicht verfügbar."))
    ∧ cCargoFlight.board_passengers 1
        = .error (.valueError ("Nur Passagiermaschinen können Passagiere boarden."))
    ∧ cAirportErrors.arrive 2 = .error (.valueError ("Flug nicht in der Luft."))
    ∧ cAirportErrors.depart 3 = .error (.valueError ("Keine Piste zugewiesen."))
    ∧ (AirportErr.valueError ("x")).isTypedAirportError = false :=
  ⟨c3_error_taxonomy.1 cOccupiedGate 2 rfl,
   c3_error_taxonomy.2.1 cMaintRunway 2 rfl,
   c3_error_taxonomy.2.2.1 cCargoFlight 1 130000 rfl,
   c3_error_taxonomy.2.2.2.1 cAirportErrors 2 cCargoFlight rfl (by decide),
   c3_error_taxonomy.2.2.2.2.1 cAirportErrors 3 cReadyNoRunwayFlight rfl
     (Or.inl rfl) rfl,
   c3_error_taxonomy.2.2.2.2.2 "x"⟩

/-- Claim C5: successful `occupy` and `release` preserve the runway
invariant `status == IN_USE ⇔ currentFlight != None`, and a MAINTENANCE
runway is never available and hence never selected by the first-fit
availability scan, regardless of its `current_flight`. -/
theorem c5_runway_invariant :
    (∀ (r : Runway) (fid : Nat) (r' : Runway), runwayInv r →
        r.occupy fid = .ok r' → runwayInv r')
    ∧ (∀ r : Runway, runwayInv r → runwayInv r.release)
    ∧ (∀ r : Runway, r.status = RunwayStatus.MAINTENANCE → r.is_available = false)
    ∧ (∀ (rws : List Runway) (fid : Nat) (rws2 : List Runway) (rsel : Runway),
        assign_runway_scan rws fid = some (rws2, rsel) →
        ∃ r0, r0 ∈ rws ∧ r0.is_available = true
          ∧ r0.status ≠ RunwayStatus.MAINTENANCE
          ∧ rsel = { r0 with current_flight := some fid,
                             status := RunwayStatus.IN_USE }) := by
  refine ⟨?_, ?_, ?_, ?_⟩
  · intro r fid r' _ hok
    unfold Runway.occupy at hok
    cases ha : r.is_available with
    | false =>
      rw [ha] at hok
      simp at hok
    | true =>
      rw [ha] at hok
      simp only [Bool.not_true, Bool.false_eq_true, if_false, Except.ok.injEq] at hok
      subst hok
      simp [runwayInv]
  · intro r _
    simp [runwayInv, Runway.release]
  · intro r hm
    unfold Runway.is_available
    rw [hm]
    rfl
  · intro rws fid rws2 rsel h
    obtain ⟨r0, hmem, havail, heq⟩ := assign_runway_scan_selected rws fid rws2 rsel h
    refine ⟨r0, hmem, havail, ?_, heq⟩
    have h2 := havail
    simp [Runway.is_available] at h2
    rw [h2.1]
    simp

/-- Witness for C5: the invariant after occupying the free runway, after
releasing the maintenance runway, the unavailability of the maintenance
runway, and the scan selection over a one-runway pool. -/
theorem c5_runway_invariant_witness :
    runwayInv { cFreeRunway with current_flight := some 1,
                                 status := RunwayStatus.IN_USE }
    ∧ runwayInv cMaintRunway.release
    ∧ cMaintRunway.is_available = false
    ∧ (∃ r0, r0 ∈ [cFreeRunway] ∧ r0.is_available = true
        ∧ r0.status ≠ RunwayStatus.MAINTENANCE
        ∧ ({ cFreeRunway with current_flight := some 1,
                              status := RunwayStatus.IN_USE } : Runway)
            = { r0 with current_flight := some 1,
                        status := RunwayStatus.IN_USE }) :=
  ⟨c5_runway_invariant.1 cFreeRunway 1
      { cFreeRunway with current_flight := some 1, status := RunwayStatus.IN_USE }
      (by unfold runwayInv; decide) rfl,
   c5_runway_invariant.2.1 cMaintRunway (by unfold runwayInv; decide),
   c5_runway_invariant.2.2.1 cMaintRunway rfl,
   c5_runway_invariant.2.2.2 [cFreeRunway] 1
      [{ cFreeRunway with current_flight := some 1, status := RunwayStatus.IN_USE }]
      { cFreeRunway with current_flight := some 1, status := RunwayStatus.IN_USE }
      rfl⟩

/-- Claim C4: `assign_gate` locates the flight and scans the gates in
registration order, assigning the first free gate; when no gate is free it
fails with `GateNotAvailableError` and produces no new state, so the
flight gate reference is untouched. -/
theorem c4_assign_gate (a : Airport) (fid : Nat) (flight : Flight)
    (h1 : a.flights.find? (fun f => f.id == fid) = some flight) :
    (∀ g, a.gates.find? (fun x => x.is_free) = some g →
       ∃ a', a.assign_gate fid = .ok (a', { g with occupied_by := some fid })
         ∧ a'.flights.find? (fun f => f.id == fid)
             = some { flight with gate_id := some g.id })
    ∧ (a.gates.find? (fun x => x.is_free) = none →
       a.assign_gate fid = .error (.gateNotAvailableError ("Kein Gate frei."))) := by
  have hff := find_flight_ok a fid flight h1
  constructor
  · intro g hg
    obtain ⟨gs2, hscan, hsome⟩ := assign_gate_scan_found a.gates fid g hg
    refine ⟨({ a with gates := gs2 }).set_flight
        { flight with gate_id := some g.id }, ?_, ?_⟩
    · simp only [Airport.assign_gate, hff, hscan]
    · exact find?_map_update Flight.id a.flights fid flight
        { flight with gate_id := some g.id } h1 rfl
  · intro hnone
    have hsc := assign_gate_scan_none a.gates fid hnone
    simp only [Airport.assign_gate, hff, hsc]

/-- Witness for C4: with free gates A1, A2 registered in that order the
first call assigns A1; with only an occupied gate the call fails. -/
theorem c4_assign_gate_witness :
    (∃ a', cAirportTwoFreeGates.assign_gate 1
        = .ok (a', { cFreeGateA1 with occupied_by := some 1 })
      ∧ a'.flights.find? (fun f => f.id == 1)
          = some { cPlannedFlight with gate_id := some cFreeGateA1.id })
    ∧ cAirportNoFreeGate.assign_gate 1
        = .error (.gateNotAvailableError ("Kein Gate frei.")) :=
  ⟨(c4_assign_gate cAirportTwoFreeGates 1 cPlannedFlight rfl).1 cFreeGateA1 rfl,
   (c4_assign_gate cAirportNoFreeGate 1 cPlannedFlight rfl).2 rfl⟩

/-- Behaviour of `release_gate` when the flight holds no gate: a no-op. -/
theorem release_gate_spec_none (b : Airport) (fid : Nat) (fl : Flight)
    (hb : b.flights.find? (fun f => f.id == fid) = some fl)
    (hgid : fl.gate_id = none) :
    b.release_gate fid = .ok b := by
  have hff := find_flight_ok b fid fl hb
  simp only [Airport.release_gate, hff, hgid]

/-- Behaviour of `release_gate` when the flight holds a gate that exists
in the pool: the gate is released and the flight gate reference
cleared; runways are untouched. -/
theorem release_gate_spec_some (b : Airport) (fid gid : Nat) (fl : Flight) (g0 : Gate)
    (hb : b.flights.find? (fun f => f.id == fid) = some fl)
    (hgid : fl.gate_id = some gid)
    (hg : b.gates.find? (fun g => g.id == gid) = some g0) :
    ∃ b', b.release_gate fid = .ok b'
      ∧ b'.runways = b.runways
      ∧ b'.flights.find? (fun f => f.id == fid) = some { fl with gate_id := none }
      ∧ ∀ n, ¬ n = gid →
          b'.gates.find? (fun g => g.id == n) = b.gates.find? (fun g => g.id == n) := by
  have hff := find_flight_ok b fid fl hb
  obtain ⟨gs2, hscan, _⟩ := release_gate_scan_found b.gates gid g0 hg
  refine ⟨({ b with gates := gs2 }).set_flight { fl with gate_id := none },
    ?_, rfl, ?_, ?_⟩
  · simp only [Airport.release_gate, hff, hgid, hscan]
  · exact find?_map_update Flight.id b.flights fid fl { fl with gate_id := none } hb rfl
  · intro n hn
    exact release_gate_scan_preserve b.gates gs2 gid n hscan hn

/-- Claim C1: in any airport state where the target flight has status
READY or TAXI and holds a runway that exists in the runway pool (and any
held gate exists in the gate pool), `depart` succeeds; afterwards the
flight status is AIRBORNE, the held runway is FREE with `current_flight`
unset, and the flight runway and gate references are both unset. -/
theorem c1_depart (a : Airport) (fid rid : Nat) (flight : Flight) (r0 : Runway)
    (h1 : a.flights.find? (fun f => f.id == fid) = some flight)
    (h2 : flight.status = FlightStatus.READY ∨ flight.status = FlightStatus.TAXI)
    (h3 : flight.runway_id = some rid)
    (h4 : a.runways.find? (fun r => r.id == rid) = some r0)
    (h5 : ∀ gid, flight.gate_id = some gid →
        ∃ g0, a.gates.find? (fun g => g.id == gid) = some g0) :
    ∃ a' fl', a.depart fid = .ok a'
      ∧ a'.flights.find? (fun f => f.id == fid) = some fl'
      ∧ fl'.status = FlightStatus.AIRBORNE
      ∧ fl'.runway_id = none
      ∧ fl'.gate_id = none
      ∧ ∃ r', a'.runways.find? (fun r => r.id == rid) = some r'
          ∧ r'.status = RunwayStatus.FREE ∧ r'.current_flight = none := by
  have hff := find_flight_ok a fid flight h1
  have hb : (flight.status == FlightStatus.READY
      || flight.status == FlightStatus.TAXI) = true := by
    rcases h2 with h|h <;> simp [h]
  obtain ⟨rws2, hscan, hrfind⟩ := release_runway_scan_found a.runways rid r0 h4
  have hdep : a.depart fid
      = (({ a with runways := rws2 }).set_flight
          { flight.set_status FlightStatus.AIRBORNE with runway_id := none
          }).release_gate fid := by
    simp only [Airport.depart, hff, hb, Bool.not_true, Bool.false_eq_true, if_false,
      h3, hscan]
  have hstfind : ((({ a with runways := rws2 }).set_flight
        { flight.set_status FlightStatus.AIRBORNE with runway_id := none
        }).flights).find? (fun f => f.id == fid)
      = some { flight.set_status FlightStatus.AIRBORNE with runway_id := none } :=
    find?_map_update Flight.id a.flights fid flight
      { flight.set_status FlightStatus.AIRBORNE with runway_id := none } h1 rfl
  cases hg : flight.gate_id with
  | none =>
    have hrel := release_gate_spec_none
      (({ a with runways := rws2 }).set_flight
        { flight.set_status FlightStatus.AIRBORNE with runway_id := none })
      fid
      { flight.set_status FlightStatus.AIRBORNE with runway_id := none }
      hstfind hg
    exact ⟨({ a with runways := rws2 }).set_flight
        { flight.set_status FlightStatus.AIRBORNE with runway_id := none },
      { flight.set_status FlightStatus.AIRBORNE with runway_id := none },
      hdep.trans hrel, hstfind, rfl, rfl, hg, r0.release, hrfind, rfl, rfl⟩
  | some gid =>
    obtain ⟨g0, hgfind⟩ := h5 gid hg
    obtain ⟨b', hrel, hruns, hbfind, _⟩ := release_gate_spec_some
      (({ a with runways := rws2 }).set_flight
        { flight.set_status FlightStatus.AIRBORNE with runway_id := none })
      fid gid
      { flight.set_status FlightStatus.AIRBORNE with runway_id := none }
      g0 hstfind hg hgfind
    refine ⟨b', { { flight.set_status FlightStatus.AIRBORNE with runway_id := none }
        with gate_id := none },
      hdep.trans hrel, hbfind, rfl, rfl, rfl, r0.release, ?_, rfl, rfl⟩
    rw [hruns]
    exact hrfind

/-- Witness for C1: departing the READY flight that holds runway 1 and
gate 1. -/
theorem c1_depart_witness :
    ∃ a' fl', cAirportReadyToDepart.depart 1 = .ok a'
      ∧ a'.flights.find? (fun f => f.id == 1) = some fl'
      ∧ fl'.status = FlightStatus.AIRBORNE
      ∧ fl'.runway_id = none
      ∧ fl'.gate_id = none
      ∧ ∃ r', a'.runways.find? (fun r => r.id == 1) = some r'
          ∧ r'.status = RunwayStatus.FREE ∧ r'.current_flight = none :=
  c1_depart cAirportReadyToDepart 1 1 cReadyFlight cRunwayInUse rfl (Or.inl rfl)
    rfl rfl
    (fun gid hg => by
      cases Option.some.inj hg
      exact ⟨cOccupiedGate, rfl⟩)

/-- Claim C10: when a flight already holds gate `G` (occupied by it) and
some other gate is free, a second `assign_gate` call succeeds, assigns the
first free gate, overwrites the flight gate reference with the new
gate id, and leaves `G` still occupied; the subsequent `release_gate`
releases only the new gate and clears the flight reference, after which
`release_gate` is a no-op — `G` is never released for this flight. -/
theorem c10_second_assign_gate (a : Airport) (fid gid : Nat) (flight : Flight)
    (G gfree : Gate)
    (h1 : a.flights.find? (fun f => f.id == fid) = some flight)
    (h2 : flight.gate_id = some gid)
    (h3 : a.gates.find? (fun x => x.id == gid) = some G)
    (h4 : G.occupied_by = some fid)
    (h5 : a.gates.find? (fun x => x.is_free) = some gfree)
    (h6 : ¬ gfree.id = gid) :
    ∃ a', a.assign_gate fid = .ok (a', { gfree with occupied_by := some fid })
      ∧ a'.flights.find? (fun f => f.id == fid)
          = some { flight with gate_id := some gfree.id }
      ∧ a'.gates.find? (fun x => x.id == gid) = some G
      ∧ ∃ a'', a'.release_gate fid = .ok a''
          ∧ a''.gates.find? (fun x => x.id == gid) = some G
          ∧ a''.flights.find? (fun f => f.id == fid)
              = some { flight with gate_id := none }
          ∧ a''.release_gate fid = .ok a'' := by
  have hff := find_flight_ok a fid flight h1
  obtain ⟨gs2, hscan, hsome⟩ := assign_gate_scan_found a.gates fid gfree h5
  have hassign : a.assign_gate fid
      = .ok (({ a with gates := gs2 }).set_flight
            { flight with gate_id := some gfree.id },
          { gfree with occupied_by := some fid }) := by
    simp only [Airport.assign_gate, hff, hscan]
  have hflfind : (({ a with gates := gs2 }).set_flight
        { flight with gate_id := some gfree.id }).flights.find?
        (fun f => f.id == fid)
      = some { flight with gate_id := some gfree.id } :=
    find?_map_update Flight.id a.flights fid flight
      { flight with gate_id := some gfree.id } h1 rfl
  have hpres : gs2.find? (fun x => x.id == gid)
      = a.gates.find? (fun x => x.id == gid) :=
    assign_gate_scan_preserve a.gates gs2 { gfree with occupied_by := some fid }
      fid gid hscan (fun hc => h6 hc.symm)
  have hGstill : (({ a with gates := gs2 }).set_flight
        { flight with gate_id := some gfree.id }).gates.find?
        (fun x => x.id == gid) = some G := hpres.trans h3
  obtain ⟨g0', hg0'⟩ := Option.isSome_iff_exists.mp hsome
  obtain ⟨a'', hrel, hruns, hbfind, hgpres⟩ := release_gate_spec_some
    (({ a with gates := gs2 }).set_flight { flight with gate_id := some gfree.id })
    fid gfree.id { flight with gate_id := some gfree.id } g0' hflfind rfl hg0'
  have hG2 : a''.gates.find? (fun x => x.id == gid) = some G :=
    (hgpres gid (fun hc => h6 hc.symm)).trans hGstill
  have hnoop := release_gate_spec_none a'' fid
    { flight with gate_id := none } hbfind rfl
  exact ⟨({ a with gates := gs2 }).set_flight
      { flight with gate_id := some gfree.id },
    hassign, hflfind, hGstill, a'', hrel, hG2, hbfind, hnoop⟩

/-- Witness for C10: flight 1 holds occupied gate 1, gate 2 is free; the
second assignment takes gate 2 and gate 1 stays occupied forever. -/
theorem c10_second_assign_gate_witness :
    ∃ a', cAirportSecondAssign.assign_gate 1
        = .ok (a', { cFreeGateA2 with occupied_by := some 1 })
      ∧ a'.flights.find? (fun f => f.id == 1)
          = some { cFlightHoldingGate1 with gate_id := some cFreeGateA2.id }
      ∧ a'.gates.find? (fun x => x.id == 1) = some cOccupiedGate
      ∧ ∃ a'', a'.release_gate 1 = .ok a''
          ∧ a''.gates.find? (fun x => x.id == 1) = some cOccupiedGate
          ∧ a''.flights.find? (fun f => f.id == 1)
              = some { cFlightHoldingGate1 with gate_id := none }
          ∧ a''.release_gate 1 = .ok a'' :=
  c10_second_assign_gate cAirportSecondAssign 1 1 cFlightHoldingGate1 cOccupiedGate
    cFreeGateA2 rfl rfl rfl rfl rfl (by decide)
